import Mathlib

/-!
# Verification of the Odoo front-end widgets of `dev-eco/odoo-custom-addons`

Shallow embedding of the JavaScript widgets of this repository:

* `BulkExportProgress` (account_invoice_bulk_export/static/src/js/bulk_export.js):
  a polling component driven by a single `setInterval` timer;
* `DocumentPreviewField` / `DocumentPreviewWidget`
  (bulk_export.js and the legacy widget): binary-field preview that branches
  on the filename extension;
* `SaleOrderFormController` (sale_delivery_address_inline): button-click
  interception with a confirmation dialog;
* `CompressionFormatWidget`, `ExportProgressWidget`, `PavementCalculator`
  (pavement_calculator/static/src/js/pavement_calculator.js).

JavaScript values are modelled explicitly: a possibly-absent field is an
`Option`, JS truthiness of strings/numbers is spelled out where the code
relies on it, and the DOM / dialog / RPC side effects of a method are
returned as data.
-/

namespace BulkExport

/-- The shape of a reply of the `/bulk_export/status/<id>` RPC, as the
component reads it: every field may be absent. -/
structure PollReply where
  error : Option String
  progress_percentage : Option ℚ
  progress_message : Option String
  state : Option String
  download_url : Option String
  deriving Repr, DecidableEq

/-- The reactive `useState` record of `BulkExportProgress.setup`. -/
structure UIState where
  progress : ℚ
  message : String
  isProcessing : Bool
  deriving Repr, DecidableEq

/-- Props of the component: `wizardId: Number`, `autoStart` optional Boolean. -/
structure Props where
  wizardId : Int
  autoStart : Option Bool
  deriving Repr, DecidableEq

/-- A live interval timer installed by `setInterval`: its id and its delay
in milliseconds. -/
structure Timer where
  id : Nat
  delayMs : Nat
  deriving Repr, DecidableEq

/-- The whole component together with the browser timer table:
`intervalId` is the field of the component, `liveTimers` the set of
installed-and-not-cleared interval timers, `nextTimer` the allocator. -/
structure Comp where
  ui : UIState
  intervalId : Option Nat
  liveTimers : List Timer
  nextTimer : Nat
  deriving Repr, DecidableEq

/-- Side effects of one `checkProgress` run: the RPC route it queried,
the notifications it added, and the assignment to `window.location.href`. -/
structure Effects where
  rpcRoute : Option String
  notifications : List (String × String)
  redirect : Option String
  deriving Repr, DecidableEq

/-- No side effect. -/
def Effects.none : Effects := ⟨Option.none, [], Option.none⟩

/-- State after `setup` has run (before `onMounted`). -/
def initComp : Comp :=
  { ui := { progress := 0, message := "", isProcessing := false }
    intervalId := Option.none
    liveTimers := []
    nextTimer := 0 }

/-- JS `setInterval`: install a fresh timer and return its id. -/
def setIntervalJS (c : Comp) (delay : Nat) : Nat × Comp :=
  (c.nextTimer,
   { c with liveTimers := ⟨c.nextTimer, delay⟩ :: c.liveTimers
            nextTimer := c.nextTimer + 1 })

/-- JS `clearInterval`: remove the timer with this id from the live set. -/
def clearIntervalJS (c : Comp) (i : Nat) : Comp :=
  { c with liveTimers := c.liveTimers.filter (fun t => t.id ≠ i) }

/-- Method `startPolling`: set `isProcessing`, install one interval of 2000 ms. -/
def startPolling (c : Comp) : Comp :=
  let c1 := { c with ui := { c.ui with isProcessing := true } }
  let p := setIntervalJS c1 2000
  { p.2 with intervalId := some p.1 }

/-- Method `stopPolling`: if `intervalId` is set, clear that interval and null it. -/
def stopPolling (c : Comp) : Comp :=
  match c.intervalId with
  | some i => { clearIntervalJS c i with intervalId := Option.none }
  | Option.none => c

/-- Hook `onMounted`: start polling when `wizardId` and `autoStart` are truthy. -/
def mount (p : Props) (c : Comp) : Comp :=
  if p.wizardId ≠ 0 ∧ p.autoStart = some true then startPolling c else c

/-- Hook `onWillUnmount`: clear the interval of `this.intervalId` when set
(the field itself is not nulled there). -/
def unmount (c : Comp) : Comp :=
  match c.intervalId with
  | some i => clearIntervalJS c i
  | Option.none => c

/-- The route `checkProgress` queries: `"/bulk_export/status/" + wizardId`. -/
def statusRoute (p : Props) : String :=
  "/bulk_export/status/" ++ toString p.wizardId

/-- The body of `async checkProgress()`.  The answer of the environment to the
`await this.rpc(...)` is passed in: `Except.error` is a thrown RPC
(caught by the `try`/`catch`), `Except.ok` a reply object. -/
def checkProgress (p : Props) (c : Comp) (r : Except Unit PollReply) :
    Comp × Effects :=
  match r with
  | .error _ =>
      (stopPolling c, { Effects.none with rpcRoute := some (statusRoute p) })
  | .ok result =>
      match result.error with
      | some e =>
          (stopPolling c,
           { rpcRoute := some (statusRoute p)
             notifications := [(e, "danger")]
             redirect := Option.none })
      | Option.none =>
          let c1 := { c with
            ui := { c.ui with
              progress := result.progress_percentage.getD 0
              message := result.progress_message.getD "" } }
          if result.state = some "done" then
            let c2 := stopPolling { c1 with ui := { c1.ui with isProcessing := false } }
            match result.download_url with
            | some url =>
                (c2, { rpcRoute := some (statusRoute p)
                       notifications :=
                         [("Exportación completada. Descargando archivo...",
                           "success")]
                       redirect := some url })
            | Option.none =>
                (c2, { Effects.none with rpcRoute := some (statusRoute p) })
          else if result.state = some "error" then
            (stopPolling { c1 with ui := { c1.ui with isProcessing := false } },
             { rpcRoute := some (statusRoute p)
               notifications := [("Error en la exportación. Revise los logs.",
                                  "danger")]
               redirect := Option.none })
          else
            (c1, { Effects.none with rpcRoute := some (statusRoute p) })

/-- One firing opportunity of the interval: the callback `checkProgress`
runs exactly when an interval timer is still installed. -/
def tick (p : Props) (c : Comp) (r : Except Unit PollReply) : Comp × Effects :=
  if c.liveTimers = [] then (c, Effects.none) else checkProgress p c r

/-- Run a sequence of firing opportunities, collecting per-tick effects. -/
def runTicks (p : Props) (c : Comp) :
    List (Except Unit PollReply) → Comp × List Effects
  | [] => (c, [])
  | r :: rs =>
      let step := tick p c r
      let rest := runTicks p step.1 rs
      (rest.1, step.2 :: rest.2)

/-- All intermediate component states along a tick sequence. -/
def tickStates (p : Props) (c : Comp) :
    List (Except Unit PollReply) → List Comp
  | [] => []
  | r :: rs =>
      let c1 := (tick p c r).1
      c1 :: tickStates p c1 rs

/-- Every state of one component lifecycle: after `setup`, after
`onMounted`, after each interval firing, and after `onWillUnmount`. -/
def lifecycleStates (p : Props) (rs : List (Except Unit PollReply)) :
    List Comp :=
  let c1 := mount p initComp
  let mids := tickStates p c1 rs
  initComp :: c1 :: mids ++ [unmount (mids.getLastD c1)]

/-- A reply is terminal for the polling loop: a thrown RPC, a reply with
an `error` field, or a reply in state `done` or `error`. -/
def terminalReply (r : Except Unit PollReply) : Prop :=
  match r with
  | .error _ => True
  | .ok res => res.error.isSome ∨ res.state = some "done" ∨ res.state = some "error"

instance : DecidablePred terminalReply := by
  intro r
  unfold terminalReply
  match r with
  | .error _ => exact inferInstance
  | .ok res => exact inferInstance

/-- Timer-table sanity: either no timer is installed, or exactly the one
interval recorded in `intervalId` is. -/
def timerInv (c : Comp) : Prop :=
  c.liveTimers = [] ∨ ∃ t : Timer, c.liveTimers = [t] ∧ c.intervalId = some t.id

lemma stopPolling_intervalId (c : Comp) :
    (stopPolling c).intervalId = Option.none := by
  rcases hI : c.intervalId with _ | i <;>
    simp [stopPolling, clearIntervalJS, hI]

lemma stopPolling_ui (c : Comp) : (stopPolling c).ui = c.ui := by
  rcases hI : c.intervalId with _ | i <;>
    simp [stopPolling, clearIntervalJS, hI]

lemma stopPolling_liveTimers (c : Comp) (h : timerInv c) :
    (stopPolling c).liveTimers = [] := by
  rcases h with h | ⟨t, hl, hi⟩
  · rcases hI : c.intervalId with _ | i <;>
      simp [stopPolling, clearIntervalJS, hI, h]
  · simp [stopPolling, clearIntervalJS, hi, hl]

lemma timerInv_stopPolling (c : Comp) (h : timerInv c) :
    timerInv (stopPolling c) :=
  Or.inl (stopPolling_liveTimers c h)

lemma timerInv_of_fields (c c' : Comp) (hl : c'.liveTimers = c.liveTimers)
    (hi : c'.intervalId = c.intervalId) (h : timerInv c) : timerInv c' := by
  unfold timerInv at h ⊢
  rw [hl, hi]
  exact h

lemma timerInv_checkProgress (p : Props) (c : Comp)
    (r : Except Unit PollReply) (h : timerInv c) :
    timerInv (checkProgress p c r).1 := by
  unfold checkProgress
  rcases r with _ | ⟨err, pp, pm, st, du⟩
  · exact timerInv_stopPolling c h
  · rcases err with _ | e
    · dsimp only
      by_cases hD : st = some "done"
      · rw [if_pos hD]
        rcases du with _ | url <;>
          exact timerInv_stopPolling _ (timerInv_of_fields c _ rfl rfl h)
      · rw [if_neg hD]
        by_cases hErr : st = some "error"
        · rw [if_pos hErr]
          exact timerInv_stopPolling _ (timerInv_of_fields c _ rfl rfl h)
        · rw [if_neg hErr]
          exact timerInv_of_fields c _ rfl rfl h
    · exact timerInv_stopPolling c h

lemma timerInv_tick (p : Props) (c : Comp)
    (r : Except Unit PollReply) (h : timerInv c) :
    timerInv (tick p c r).1 := by
  unfold tick
  by_cases hl : c.liveTimers = []
  · simp [hl, h]
  · simp only [hl, reduceIte]
    exact timerInv_checkProgress p c r h

lemma timerInv_initComp : timerInv initComp := Or.inl rfl

lemma timerInv_startPolling_of_none (c : Comp)
    (h : c.liveTimers = []) : timerInv (startPolling c) := by
  unfold startPolling setIntervalJS
  exact Or.inr ⟨⟨c.nextTimer, 2000⟩, by simp [h]⟩

lemma timerInv_mount (p : Props) : timerInv (mount p initComp) := by
  unfold mount
  split
  · exact timerInv_startPolling_of_none initComp rfl
  · exact timerInv_initComp

lemma timerInv_unmount (c : Comp) (h : timerInv c) :
    timerInv (unmount c) := by
  unfold unmount clearIntervalJS
  rcases h with hl | ⟨t, hl, hi⟩
  · cases hI : c.intervalId <;> simp [hl, timerInv]
  · rw [hi]
    exact Or.inl (by simp [hl])

lemma timerInv_tickStates (p : Props) (c : Comp)
    (rs : List (Except Unit PollReply)) (h : timerInv c) :
    ∀ x ∈ tickStates p c rs, timerInv x := by
  induction rs generalizing c with
  | nil => intro x hx; simp [tickStates] at hx
  | cons r rs ih =>
      intro x hx
      simp only [tickStates, List.mem_cons] at hx
      rcases hx with hx | hx
      · rw [hx]; exact timerInv_tick p c r h
      · exact ih (tick p c r).1 (timerInv_tick p c r h) x hx

lemma timerInv_getLastD (p : Props) (c : Comp)
    (rs : List (Except Unit PollReply)) (h : timerInv c) :
    timerInv ((tickStates p c rs).getLastD c) := by
  by_cases hne : tickStates p c rs = []
  · rw [hne]
    simpa using h
  · have hmem : (tickStates p c rs).getLastD c ∈ tickStates p c rs := by
      rw [List.getLastD_eq_getLast?, List.getLast?_eq_getLast _ hne]
      simp only [Option.getD_some]
      exact List.getLast_mem hne
    exact timerInv_tickStates p c rs h _ hmem

lemma timerInv_lifecycle (p : Props) (rs : List (Except Unit PollReply)) :
    ∀ c ∈ lifecycleStates p rs, timerInv c := by
  intro c hc
  unfold lifecycleStates at hc
  rcases List.mem_cons.mp hc with h | hc1
  · rw [h]; exact timerInv_initComp
  rcases List.mem_cons.mp hc1 with h | hc2
  · rw [h]; exact timerInv_mount p
  rcases List.mem_append.mp hc2 with h | h
  · exact timerInv_tickStates p _ rs (timerInv_mount p) c h
  · rw [List.mem_singleton.mp h]
    exact timerInv_unmount _
      (timerInv_getLastD p (mount p initComp) rs (timerInv_mount p))

lemma timerInv_length (c : Comp) (h : timerInv c) :
    c.liveTimers.length ≤ 1 := by
  rcases h with h | ⟨t, hl, _⟩
  · simp [h]
  · simp [hl]

lemma tick_of_empty (p : Props) (c : Comp)
    (r : Except Unit PollReply) (h : c.liveTimers = []) :
    tick p c r = (c, Effects.none) := by
  unfold tick
  simp [h]

lemma runTicks_of_empty (p : Props) (c : Comp)
    (rs : List (Except Unit PollReply)) (h : c.liveTimers = []) :
    (runTicks p c rs).1 = c ∧
      ∀ e ∈ (runTicks p c rs).2, e.rpcRoute = Option.none := by
  induction rs with
  | nil => simp [runTicks]
  | cons r rs ih =>
      unfold runTicks
      rw [tick_of_empty p c r h]
      refine ⟨ih.1, ?_⟩
      intro e he
      simp only [List.mem_cons] at he
      rcases he with he | he
      · rw [he]; rfl
      · exact ih.2 e he

lemma checkProgress_rpcRoute (p : Props) (c : Comp)
    (r : Except Unit PollReply) :
    (checkProgress p c r).2.rpcRoute = some (statusRoute p) := by
  unfold checkProgress
  rcases r with _ | ⟨err, pp, pm, st, du⟩
  · rfl
  · rcases err with _ | e
    · dsimp only
      by_cases hD : st = some "done"
      · rw [if_pos hD]
        rcases du with _ | url <;> rfl
      · rw [if_neg hD]
        by_cases hErr : st = some "error"
        · rw [if_pos hErr]
        · rw [if_neg hErr]
    · rfl

lemma checkProgress_progress (p : Props) (c : Comp) (res : PollReply)
    (hE : res.error = Option.none) :
    (checkProgress p c (.ok res)).1.ui.progress =
        res.progress_percentage.getD 0 ∧
      (checkProgress p c (.ok res)).1.ui.message =
        res.progress_message.getD "" := by
  unfold checkProgress
  rcases res with ⟨err, pp, pm, st, du⟩
  simp only at hE
  subst hE
  dsimp only
  by_cases hD : st = some "done"
  · rw [if_pos hD]
    rcases du with _ | url <;>
      exact ⟨by rw [stopPolling_ui], by rw [stopPolling_ui]⟩
  · rw [if_neg hD]
    by_cases hErr : st = some "error"
    · rw [if_pos hErr]
      exact ⟨by rw [stopPolling_ui], by rw [stopPolling_ui]⟩
    · rw [if_neg hErr]
      exact ⟨rfl, rfl⟩

lemma checkProgress_redirect (p : Props) (c : Comp) (res : PollReply)
    (hE : res.error = Option.none) (hD : res.state = some "done")
    (url : String) (hU : res.download_url = some url) :
    (checkProgress p c (.ok res)).2.redirect = some url := by
  unfold checkProgress
  rcases res with ⟨err, pp, pm, st, du⟩
  simp only at hE hD hU
  subst hE
  subst hU
  dsimp only
  rw [if_pos hD]

lemma checkProgress_terminal (p : Props) (c : Comp)
    (r : Except Unit PollReply) (hinv : timerInv c)
    (hterm : terminalReply r) :
    (checkProgress p c r).1.intervalId = Option.none ∧
      (checkProgress p c r).1.liveTimers = [] := by
  unfold checkProgress
  rcases r with _ | ⟨err, pp, pm, st, du⟩
  · exact ⟨stopPolling_intervalId c, stopPolling_liveTimers c hinv⟩
  · rcases err with _ | e
    · unfold terminalReply at hterm
      simp only [Option.isSome_none, Bool.false_eq_true, false_or] at hterm
      dsimp only
      rcases hterm with hD | hErr
      · rw [if_pos hD]
        rcases du with _ | url <;>
          exact ⟨stopPolling_intervalId _,
            stopPolling_liveTimers _ (timerInv_of_fields c _ rfl rfl hinv)⟩
      · by_cases hD : st = some "done"
        · rw [if_pos hD]
          rcases du with _ | url <;>
            exact ⟨stopPolling_intervalId _,
              stopPolling_liveTimers _ (timerInv_of_fields c _ rfl rfl hinv)⟩
        · rw [if_neg hD, if_pos hErr]
          exact ⟨stopPolling_intervalId _,
            stopPolling_liveTimers _ (timerInv_of_fields c _ rfl rfl hinv)⟩
    · exact ⟨stopPolling_intervalId c, stopPolling_liveTimers c hinv⟩

/-- C1: while an interval timer is live, the polling loop of
`BulkExportProgress` runs off an interval of exactly 2000 ms installed by
`startPolling`; every tick queries the status RPC
`"/bulk_export/status/" ++ wizardId`; a reply without an `error` field has
`progress_percentage` (defaulting to 0) stored into `state.progress`; and a
reply in state `done` carrying a `download_url` makes the component assign
that url to `window.location.href`. -/
theorem bulk_export_polling_loop (p : Props) (c : Comp)
    (r : Except Unit PollReply) (res : PollReply)
    (hlive : c.liveTimers ≠ []) :
    (startPolling c).liveTimers.head? = some ⟨c.nextTimer, 2000⟩ ∧
    (tick p c r).2.rpcRoute =
      some ("/bulk_export/status/" ++ toString p.wizardId) ∧
    (res.error = Option.none →
      (tick p c (.ok res)).1.ui.progress = res.progress_percentage.getD 0 ∧
      (res.state = some "done" → ∀ url : String,
        res.download_url = some url →
        (tick p c (.ok res)).2.redirect = some url)) := by
  have htick : ∀ r' : Except Unit PollReply,
      tick p c r' = checkProgress p c r' := by
    intro r'
    unfold tick
    rw [if_neg hlive]
  refine ⟨rfl, ?_, ?_⟩
  · rw [htick r]
    exact checkProgress_rpcRoute p c r
  · intro hE
    rw [htick (.ok res)]
    exact ⟨(checkProgress_progress p c res hE).1,
      fun hD url hU => checkProgress_redirect p c res hE hD url hU⟩

/-- Closed instance of `bulk_export_polling_loop`: one started component,
one `done` reply with a download url. -/
theorem bulk_export_polling_loop_witness :
    (tick ⟨7, some true⟩ (startPolling initComp)
        (.ok ⟨Option.none, some 80, some "casi", some "done",
              some "/web/content/42"⟩)).2.redirect =
      some "/web/content/42" :=
  ((bulk_export_polling_loop ⟨7, some true⟩ (startPolling initComp)
      (.ok ⟨Option.none, some 80, some "casi", some "done",
            some "/web/content/42"⟩)
      ⟨Option.none, some 80, some "casi", some "done",
       some "/web/content/42"⟩
      (by simp [startPolling, setIntervalJS, initComp])).2.2
    rfl).2 rfl "/web/content/42" rfl

/-- C2: a poll that gets a terminal answer (a thrown RPC, a reply with
an `error` field, or a reply in state `done` or `error`) ends with
`stopPolling`: the interval is cleared and `intervalId` nulled, and no
subsequent firing opportunity runs `checkProgress` or issues an RPC. -/
theorem bulk_export_polling_stops (p : Props) (c : Comp)
    (r : Except Unit PollReply) (hinv : timerInv c)
    (hlive : c.liveTimers ≠ []) (hterm : terminalReply r) :
    (tick p c r).1.intervalId = Option.none ∧
    (tick p c r).1.liveTimers = [] ∧
    ∀ rs : List (Except Unit PollReply),
      (runTicks p (tick p c r).1 rs).1 = (tick p c r).1 ∧
      ∀ e ∈ (runTicks p (tick p c r).1 rs).2, e.rpcRoute = Option.none := by
  have htick : tick p c r = checkProgress p c r := by
    unfold tick
    rw [if_neg hlive]
  have hT := checkProgress_terminal p c r hinv hterm
  rw [htick]
  exact ⟨hT.1, hT.2, fun rs => runTicks_of_empty p _ rs hT.2⟩

/-- Closed instance of `bulk_export_polling_stops`: a started component
receiving a `done` reply; the follow-up tick issues no RPC. -/
theorem bulk_export_polling_stops_witness :
    (tick ⟨3, some true⟩ (startPolling initComp)
        (.ok ⟨Option.none, some 100, Option.none, some "done",
              Option.none⟩)).1.intervalId = Option.none :=
  (bulk_export_polling_stops ⟨3, some true⟩ (startPolling initComp)
      (.ok ⟨Option.none, some 100, Option.none, some "done", Option.none⟩)
      (timerInv_startPolling_of_none initComp rfl)
      (by simp [startPolling, setIntervalJS, initComp])
      (by simp [terminalReply])).1

/-- C6: `intervalId` is null after `setup`; `startPolling` installs
exactly one new interval and `stopPolling` nulls the field; along every
component lifecycle (setup, mount, any sequence of interval firings,
unmount) at most one interval timer is alive. -/
theorem bulk_export_single_timer :
    initComp.intervalId = Option.none ∧
    (∀ c : Comp, (startPolling c).liveTimers.length =
      c.liveTimers.length + 1) ∧
    (∀ c : Comp, (stopPolling c).intervalId = Option.none) ∧
    ∀ (p : Props) (rs : List (Except Unit PollReply)),
      ∀ c ∈ lifecycleStates p rs, c.liveTimers.length ≤ 1 := by
  refine ⟨rfl, ?_, stopPolling_intervalId, ?_⟩
  · intro c
    unfold startPolling setIntervalJS
    simp
  · intro p rs c hc
    exact timerInv_length c (timerInv_lifecycle p rs c hc)

/-- Closed instance of `bulk_export_single_timer`: the mounted state of an
auto-started component holds at most one timer. -/
theorem bulk_export_single_timer_witness :
    (mount ⟨1, some true⟩ initComp).liveTimers.length ≤ 1 :=
  bulk_export_single_timer.2.2.2 ⟨1, some true⟩ [] _
    (by simp [lifecycleStates, tickStates])

/-- C9: a poll reply carrying an `error` field makes `checkProgress`
notify and stop polling but return before the assignments to
`state.progress` and `state.message`, which therefore keep their previous
values. -/
theorem bulk_export_error_keeps_progress (p : Props) (c : Comp)
    (res : PollReply) (e : String) (hE : res.error = some e) :
    (checkProgress p c (.ok res)).1.ui.progress = c.ui.progress ∧
    (checkProgress p c (.ok res)).1.ui.message = c.ui.message ∧
    (checkProgress p c (.ok res)).2.notifications = [(e, "danger")] := by
  unfold checkProgress
  rcases res with ⟨err, pp, pm, st, du⟩
  simp only at hE
  subst hE
  exact ⟨by rw [stopPolling_ui], by rw [stopPolling_ui], rfl⟩

/-- Closed instance of `bulk_export_error_keeps_progress`. -/
theorem bulk_export_error_keeps_progress_witness :
    (checkProgress ⟨5, some true⟩ (startPolling initComp)
        (.ok ⟨some "boom", some 55, some "m", some "processing",
              Option.none⟩)).1.ui.progress =
      (startPolling initComp).ui.progress :=
  (bulk_export_error_keeps_progress ⟨5, some true⟩ (startPolling initComp)
    ⟨some "boom", some 55, some "m", some "processing", Option.none⟩
    "boom" rfl).1

end BulkExport

namespace DocPreview

/-!
The document preview appears twice in the repository with the same
classification logic: the OWL `DocumentPreviewField` (bulk_export.js) and
the legacy `DocumentPreviewWidget` (document_automation).  Both compute
the
lower-cased final dot-separated chunk of the filename and branch
identically.
-/

/-- JS split at dots (`String.prototype.split`): split a character list;
an input without dots yields one chunk, the empty input yields `[""]`,
exactly as in JS. -/
def splitOnDot : List Char → List (List Char)
  | [] => [[]]
  | c :: rest =>
      let r := splitOnDot rest
      if c = '.' then [] :: r
      else
        match r with
        | [] => [[c]]
        | x :: xs => (c :: x) :: xs

/-- Lower-cased final dot-separated chunk: JS split, pop, toLowerCase. -/
def jsExtension (filename : String) : String :=
  ⟨((splitOnDot filename.data).getLastD []).map Char.toLower⟩

/-- The image-extension list of the branch. -/
def imageExtensions : List String := ["jpg", "jpeg", "png", "gif", "bmp"]

/-- Method `_determineDocumentType` of `DocumentPreviewField` / the `init` branch
of `DocumentPreviewWidget`: starts at `unknown`, only classifies when
the filename is truthy. -/
def determineDocumentType (filename : String) : String :=
  if filename = "" then "unknown"
  else
    let extension := jsExtension filename
    if extension ∈ ["pdf"] then "pdf"
    else if extension ∈ imageExtensions then "image"
    else "unknown"

/-- JS truthiness of an optional binary/string value. -/
def truthyStr : Option String → Bool
  | some s => s ≠ ""
  | Option.none => false

/-- Flag `previewEnabled` is set to `true` in `setup`/`init` and never changed. -/
def previewEnabled : Bool := true

/-- Guard of `_addPreviewButton` / `_render`: the preview button exists iff
the value is truthy, preview is enabled, and the type is pdf or image. -/
def hasPreviewButton (value : Option String) (docType : String) : Bool :=
  truthyStr value && previewEnabled && (docType == "pdf" || docType == "image")

/-- Body of the preview modal. -/
inductive PreviewContent where
  | embedPdf (src : String) (mimeType : String)
  | imageTag (src : String) (alt : String)
  | emptyContainer
  deriving Repr, DecidableEq

/-- The dialog opened by `_onClickPreview`. -/
structure PreviewDialog where
  title : String
  size : String
  body : PreviewContent
  deriving Repr, DecidableEq

/-- Method `_onClickPreview`: return without a dialog when the value is falsy,
otherwise open a modal dialog whose body depends on the document type. -/
def onClickPreview (value : Option String) (docType filename : String) :
    Option PreviewDialog :=
  match value with
  | Option.none => Option.none
  | some fileData =>
      if fileData = "" then Option.none
      else some
        { title := "Previsualización: " ++ filename
          size := "large"
          body :=
            if docType = "pdf" then
              .embedPdf ("data:application/pdf;base64," ++ fileData)
                "application/pdf"
            else if docType = "image" then
              .imageTag ("data:image;base64," ++ fileData)
                (if filename = "" then "Imagen" else filename)
            else .emptyContainer }

/-- List `supportedTypes` of the legacy `DocumentPreviewWidget`. -/
def supportedTypes : List String :=
  ["application/pdf", "image/jpeg", "image/png", "image/gif", "image/tiff"]

/-- C3: with a non-empty binary value, the widget branches on the
lower-cased final extension of the filename: `pdf` gives type `pdf` and a
modal dialog embedding a `data:application/pdf;base64` source; the image
extensions give type `image` and a dialog with an `img` element; any
other extension gives type `unknown` and no preview button. -/
theorem document_preview_extension_branch (filename data : String)
    (hdata : data ≠ "") :
    (jsExtension filename = "pdf" →
      determineDocumentType filename = "pdf" ∧
      hasPreviewButton (some data) "pdf" = true ∧
      onClickPreview (some data) "pdf" filename =
        some { title := "Previsualización: " ++ filename
               size := "large"
               body := .embedPdf ("data:application/pdf;base64," ++ data)
                         "application/pdf" }) ∧
    (jsExtension filename ∈ imageExtensions →
      determineDocumentType filename = "image" ∧
      hasPreviewButton (some data) "image" = true ∧
      onClickPreview (some data) "image" filename =
        some { title := "Previsualización: " ++ filename
               size := "large"
               body := .imageTag ("data:image;base64," ++ data)
                         (if filename = "" then "Imagen" else filename) }) ∧
    (jsExtension filename ≠ "pdf" → jsExtension filename ∉ imageExtensions →
      determineDocumentType filename = "unknown" ∧
      hasPreviewButton (some data) (determineDocumentType filename) = false) := by
  refine ⟨?_, ?_, ?_⟩
  · intro hext
    by_cases hf : filename = ""
    · rw [hf] at hext
      exact absurd hext (by decide)
    · refine ⟨?_, ?_, ?_⟩
      · unfold determineDocumentType
        rw [if_neg hf]
        simp [hext]
      · simp [hasPreviewButton, truthyStr, previewEnabled, hdata]
      · dsimp only [onClickPreview]
        rw [if_neg hdata]
        simp
  · intro hext
    by_cases hf : filename = ""
    · rw [hf] at hext
      exact absurd hext (by decide)
    · have hpdf : jsExtension filename ≠ "pdf" := by
        intro h
        rw [h] at hext
        exact absurd hext (by decide)
      refine ⟨?_, ?_, ?_⟩
      · unfold determineDocumentType
        rw [if_neg hf]
        simp [hext, hpdf]
      · simp [hasPreviewButton, truthyStr, previewEnabled, hdata]
      · dsimp only [onClickPreview]
        rw [if_neg hdata]
        simp
  · intro hpdf himg
    have htype : determineDocumentType filename = "unknown" := by
      by_cases hf : filename = ""
      · unfold determineDocumentType
        rw [if_pos hf]
      · unfold determineDocumentType
        rw [if_neg hf]
        simp [hpdf, himg]
    refine ⟨htype, ?_⟩
    rw [htype]
    simp [hasPreviewButton]

/-- Closed instance of `document_preview_extension_branch`: an upper-case
`.PDF` file is classified `pdf` and previewed through an embed tag. -/
theorem document_preview_extension_branch_witness :
    determineDocumentType "factura.PDF" = "pdf" ∧
    onClickPreview (some "QUJD") "pdf" "factura.PDF" =
      some { title := "Previsualización: factura.PDF"
             size := "large"
             body := .embedPdf "data:application/pdf;base64,QUJD"
                       "application/pdf" } := by
  have h := (document_preview_extension_branch "factura.PDF" "QUJD"
      (by decide)).1 (by decide)
  exact ⟨h.1, h.2.2⟩

/-- C10: the type `image/tiff` is listed among the
`supportedTypes` of the legacy widget, yet a filename with extension `tiff` or `tif` falls
through the extension branch to type `unknown`, so no preview button is
rendered even when a binary value is present. -/
theorem document_preview_tiff_not_previewable :
    "image/tiff" ∈ supportedTypes ∧
    ∀ filename : String,
      (jsExtension filename = "tiff" ∨ jsExtension filename = "tif") →
      determineDocumentType filename = "unknown" ∧
      ∀ value : Option String,
        hasPreviewButton value (determineDocumentType filename) = false := by
  refine ⟨by decide, ?_⟩
  intro filename hext
  have hpdf : jsExtension filename ≠ "pdf" := by
    rcases hext with h | h <;> rw [h] <;> decide
  have himg : jsExtension filename ∉ imageExtensions := by
    rcases hext with h | h <;> rw [h] <;> decide
  have htype : determineDocumentType filename = "unknown" := by
    by_cases hf : filename = ""
    · unfold determineDocumentType
      rw [if_pos hf]
    · unfold determineDocumentType
      rw [if_neg hf]
      simp [hpdf, himg]
  refine ⟨htype, ?_⟩
  intro value
  rw [htype]
  simp [hasPreviewButton]

/-- Closed instance of `document_preview_tiff_not_previewable`. -/
theorem document_preview_tiff_not_previewable_witness :
    determineDocumentType "scan.tiff" = "unknown" ∧
    hasPreviewButton (some "QUJD") (determineDocumentType "scan.tiff")
      = false :=
  ⟨(document_preview_tiff_not_previewable.2 "scan.tiff" (Or.inl (by decide))).1,
   (document_preview_tiff_not_previewable.2 "scan.tiff"
      (Or.inl (by decide))).2 (some "QUJD")⟩

end DocPreview

namespace SaleDelivery

/-!
Both controllers of sale_delivery_address_inline — the legacy
`SaleOrderFormController._onButtonClicked` and the OWL
`SaleOrderDeliveryFormController.onButtonClicked` — implement the same
interception: on the `action_create_delivery_address` button of an order
in state `sale` or `done`, show a warning and only proceed (legacy:
`trigger_up` of `button_clicked`, OWL: `super.onButtonClicked`) when the
user picks *Continuar*; every other click goes to the parent controller
unchanged.
-/

/-- What becomes of one button click. -/
inductive BtnOutcome where
  /-- passed unchanged to the parent `FormController` -/
  | forwarded
  /-- warning shown, user chose *Continuar*, the action was triggered -/
  | warnedProceed
  /-- warning shown, user chose *Cancelar*, nothing was triggered -/
  | warnedCancelled
  deriving Repr, DecidableEq

/-- The interception guard of both controllers. -/
def interceptClick (buttonName st : String) : Bool :=
  buttonName == "action_create_delivery_address" &&
    ["sale", "done"].contains st

/-- Methods `_onButtonClicked` / `onButtonClicked`, with the answer of the user to the
confirmation passed in. -/
def onButtonClicked (buttonName st : String) (userConfirms : Bool) :
    BtnOutcome :=
  if interceptClick buttonName st then
    if userConfirms then .warnedProceed else .warnedCancelled
  else .forwarded

/-- A warning is displayed exactly on the intercepted combination. -/
def warningShown (buttonName st : String) : Bool :=
  interceptClick buttonName st

lemma interceptClick_iff (buttonName st : String) :
    interceptClick buttonName st = true ↔
      buttonName = "action_create_delivery_address" ∧
        (st = "sale" ∨ st = "done") := by
  simp [interceptClick]

/-- C4: a click on `action_create_delivery_address` while the order is
in state `sale` or `done` shows the warning and triggers the action of the button
 exactly when the user confirms (*Continuar*); any other button name
or state is forwarded unchanged to the parent controller. -/
theorem sale_delivery_button_confirmation (buttonName st : String)
    (userConfirms : Bool) :
    (buttonName = "action_create_delivery_address" →
      (st = "sale" ∨ st = "done") →
      warningShown buttonName st = true ∧
      (onButtonClicked buttonName st userConfirms = .warnedProceed ↔
        userConfirms = true) ∧
      (onButtonClicked buttonName st userConfirms = .warnedCancelled ↔
        userConfirms = false)) ∧
    ((buttonName ≠ "action_create_delivery_address" ∨
        (st ≠ "sale" ∧ st ≠ "done")) →
      warningShown buttonName st = false ∧
      onButtonClicked buttonName st userConfirms = .forwarded) := by
  constructor
  · intro hb hs
    have hI : interceptClick buttonName st = true :=
      (interceptClick_iff buttonName st).2 ⟨hb, hs⟩
    refine ⟨hI, ?_, ?_⟩ <;>
      · unfold onButtonClicked
        rw [if_pos hI]
        cases userConfirms <;> simp
  · intro h
    have hI : interceptClick buttonName st = false := by
      rw [Bool.eq_false_iff]
      intro hT
      rcases (interceptClick_iff buttonName st).1 hT with ⟨hb, hs⟩
      rcases h with h | ⟨h1, h2⟩
      · exact h hb
      · rcases hs with hs | hs
        · exact h1 hs
        · exact h2 hs
    refine ⟨hI, ?_⟩
    unfold onButtonClicked
    rw [if_neg (by simp [hI])]

/-- Closed instance of `sale_delivery_button_confirmation`: confirmed
order, user cancels — the warning appears and nothing is triggered. -/
theorem sale_delivery_button_confirmation_witness :
    warningShown "action_create_delivery_address" "sale" = true ∧
    onButtonClicked "action_create_delivery_address" "sale" false =
      .warnedCancelled := by
  have h := (sale_delivery_button_confirmation
      "action_create_delivery_address" "sale" false).1 rfl (Or.inl rfl)
  exact ⟨h.1, h.2.2.2 rfl⟩

end SaleDelivery

namespace Compression

/-- One entry of the static `formatInfo` table of the widget. -/
structure FormatInfo where
  icon : String
  fname : String
  description : String
  color : String
  deriving Repr, DecidableEq

/-- The `formatInfo` table built in `CompressionFormatWidget.init`. -/
def formatInfo : String → Option FormatInfo
  | "zip_fast" => some ⟨"fa-archive", "ZIP Rápido",
      "Compresión rápida, archivos más grandes", "#2196F3"⟩
  | "zip_balanced" => some ⟨"fa-archive", "ZIP Balanceado",
      "Balance entre velocidad y tamaño", "#4CAF50"⟩
  | "zip_best" => some ⟨"fa-archive", "ZIP Máxima Compresión",
      "Máxima compresión, procesamiento más lento", "#FF9800"⟩
  | "7z_normal" => some ⟨"fa-file-archive-o", "7-Zip Normal",
      "Excelente compresión, compatible 7-Zip", "#9C27B0"⟩
  | "7z_ultra" => some ⟨"fa-file-archive-o", "7-Zip Ultra",
      "Máxima compresión posible", "#673AB7"⟩
  | "tar_gz" => some ⟨"fa-file-archive-o", "TAR.GZ",
      "Estándar Unix/Linux", "#795548"⟩
  | "zip_password" => some ⟨"fa-lock", "ZIP con Contraseña",
      "ZIP protegido con contraseña", "#F44336"⟩
  | _ => Option.none

/-- The fallback used when an option value is not in the table. -/
def defaultInfo (optionLabel : String) : FormatInfo :=
  ⟨"fa-file", optionLabel, "Formato de compresión", "#666"⟩

/-- One rendered `.compression-format-option` card. -/
structure Card where
  dataValue : String
  icon : String
  cardName : String
  description : String
  color : String
  selected : Bool
  ariaPressed : String
  deriving Repr, DecidableEq

/-- Rendering of one option `[value, label]` by `_render`. -/
def renderCard (value : Option String) (opt : String × String) : Card :=
  let info := (formatInfo opt.1).getD (defaultInfo opt.2)
  { dataValue := opt.1
    icon := info.icon
    cardName := info.fname
    description := info.description
    color := info.color
    selected := if value = some opt.1 then true else false
    ariaPressed := if value = some opt.1 then "true" else "false" }

/-- Method `_render`: one card per entry of `this.field.selection`. -/
def render (value : Option String) (options : List (String × String)) :
    List Card :=
  options.map (renderCard value)

/-- Click path `_onFormatClick` → `_setValue v`: the field takes the clicked
`data-value`, and the DOM update marks selected / `aria-pressed="true"`
exactly the cards carrying that value. -/
def applyClick (cards : List Card) (v : String) : String × List Card :=
  (v, cards.map fun c =>
    { c with
      selected := if c.dataValue = v then true else false
      ariaPressed := if c.dataValue = v then "true" else "false" })

/-- C5: `_render` produces one card per option of the selection field,
carrying its `formatInfo` metadata, or the default card
(`fa-file`, the label of the option, `Formato de compresion`, `#666`) for a
value outside the table; clicking a card sets the field to its
`data-value`, and (when option values are distinct) marks exactly that
card selected / `aria-pressed="true"`. -/
theorem compression_format_cards (options : List (String × String))
    (value : Option String) (i : Nat) (opt : String × String)
    (hopt : options[i]? = some opt) :
    (render value options).length = options.length ∧
    (∃ c : Card, (render value options)[i]? = some c ∧
      c.dataValue = opt.1 ∧
      (∀ fi : FormatInfo, formatInfo opt.1 = some fi →
        c.icon = fi.icon ∧ c.cardName = fi.fname ∧
        c.description = fi.description ∧ c.color = fi.color) ∧
      (formatInfo opt.1 = Option.none →
        c.icon = "fa-file" ∧ c.cardName = opt.2 ∧
        c.description = "Formato de compresión" ∧ c.color = "#666")) ∧
    ((applyClick (render value options) opt.1).1 = opt.1 ∧
      ∀ c' ∈ (applyClick (render value options) opt.1).2,
        (c'.selected = true ↔ c'.dataValue = opt.1) ∧
        (c'.ariaPressed = "true" ↔ c'.dataValue = opt.1)) ∧
    ((options.map Prod.fst).Nodup →
      ((applyClick (render value options) opt.1).2.filter
          (fun c => c.selected)).length = 1) := by
  refine ⟨by simp [render], ?_, ⟨rfl, ?_⟩, ?_⟩
  · refine ⟨renderCard value opt, ?_, rfl, ?_, ?_⟩
    · simp [render, hopt]
    · intro fi hfi
      simp [renderCard, hfi]
    · intro hfi
      simp [renderCard, hfi, defaultInfo]
  · intro c' hc'
    simp only [applyClick, List.mem_map] at hc'
    obtain ⟨c, _, hc⟩ := hc'
    subst hc
    constructor
    · by_cases h : c.dataValue = opt.1 <;> simp [h]
    · by_cases h : c.dataValue = opt.1 <;> simp [h]
  · intro hnodup
    have hmem : opt.1 ∈ options.map Prod.fst := by
      have : opt ∈ options := by
        have := List.getElem?_mem hopt
        exact this
      exact List.mem_map_of_mem Prod.fst this
    have hcount := List.count_eq_one_of_mem hnodup hmem
    calc ((applyClick (render value options) opt.1).2.filter
            (fun c => c.selected)).length
        = (options.map Prod.fst).count opt.1 := by
          simp only [applyClick, render, List.map_map, List.filter_map,
            List.length_map, ← List.countP_eq_length_filter, List.countP_map,
            List.count]
          apply List.countP_congr
          intro o _
          by_cases h : o.1 = opt.1 <;> simp [Function.comp, renderCard, h]
      _ = 1 := hcount

/-- Closed instance of `compression_format_cards`: a two-option field;
clicking `tar_gz` selects exactly one card. -/
theorem compression_format_cards_witness :
    (render (some "zip_fast") [("zip_fast", "ZIP"), ("tar_gz", "TGZ")]).length
        = 2 ∧
    ((applyClick (render (some "zip_fast")
        [("zip_fast", "ZIP"), ("tar_gz", "TGZ")]) "tar_gz").2.filter
        (fun c => c.selected)).length = 1 := by
  have h := compression_format_cards [("zip_fast", "ZIP"), ("tar_gz", "TGZ")]
      (some "zip_fast") 1 ("tar_gz", "TGZ") rfl
  exact ⟨h.1, h.2.2.2 (by decide)⟩

end Compression

namespace Pavement

/-- The raw jQuery form inputs read by `_onCalculateClick`: the four
`.val()` strings and the checkbox. -/
structure CalcForm where
  material_id : String
  area : String
  thickness : String
  waste_factor : String
  round_to_packages : Bool
  deriving Repr, DecidableEq

/-- The reply of the `/pavement_calculator/calculate` RPC as the widget
reads it. -/
structure CalcResult where
  error : Option String
  material_quantity : ℚ
  resin_quantity : ℚ
  packages : ℚ
  material_cost : ℚ
  resin_cost : ℚ
  total_cost : ℚ
  deriving Repr, DecidableEq

/-- A value handed to jQuery `.text(...)`: a string (e.g. built with
`toFixed(2)`) or a raw number (rendered by JS number-to-string, so the
number 3 shows as `"3"`). -/
inductive JSVal where
  | str (s : String)
  | num (q : ℚ)
  deriving Repr, DecidableEq

/-- JS `Number.prototype.toFixed(2)`: round to the nearest hundredth and
print with exactly two decimals. -/
def toFixed2 (q : ℚ) : String :=
  let n : ℤ := round (q * 100)
  let sign := if n < 0 then "-" else ""
  let m := n.natAbs
  sign ++ toString (m / 100) ++ "." ++
    (if m % 100 < 10 then "0" ++ toString (m % 100) else toString (m % 100))

/-- The six result nodes written by `_displayResults`. -/
structure DisplayedResults where
  material : JSVal
  resin : JSVal
  packages : JSVal
  materialCost : JSVal
  resinCost : JSVal
  totalCost : JSVal
  deriving Repr, DecidableEq

/-- Method `_displayResults`: `toFixed(2)` plus a unit for five quantities,
`results.packages` written as-is. -/
def displayResults (r : CalcResult) : DisplayedResults :=
  { material := .str (toFixed2 r.material_quantity ++ " kg")
    resin := .str (toFixed2 r.resin_quantity ++ " L")
    packages := .num r.packages
    materialCost := .str (toFixed2 r.material_cost ++ " €")
    resinCost := .str (toFixed2 r.resin_cost ++ " €")
    totalCost := .str (toFixed2 r.total_cost ++ " €") }

/-- Everything one click of the calculate button produces. -/
structure CalcOutcome where
  errorDialog : Option String
  rpcCall : Option (String × CalcForm)
  displayed : Option DisplayedResults
  deriving Repr, DecidableEq

/-- Method `_onCalculateClick`, with the reply of the server to the single
passed in (`Except.error` is a rejected promise, caught by
`guardedCatch`). -/
def onCalculateClick (form : CalcForm) (response : Except Unit CalcResult) :
    CalcOutcome :=
  if form.material_id = "" then
    { errorDialog := some "Por favor seleccione un material"
      rpcCall := Option.none
      displayed := Option.none }
  else if form.area = "" ∨ form.thickness = "" ∨ form.waste_factor = "" then
    { errorDialog := some "Todos los campos son obligatorios"
      rpcCall := Option.none
      displayed := Option.none }
  else
    match response with
    | .error _ =>
        { errorDialog := some "Error al realizar el cálculo"
          rpcCall := some ("/pavement_calculator/calculate", form)
          displayed := Option.none }
    | .ok r =>
        match r.error with
        | some e =>
            { errorDialog := some e
              rpcCall := some ("/pavement_calculator/calculate", form)
              displayed := Option.none }
        | Option.none =>
            { errorDialog := Option.none
              rpcCall := some ("/pavement_calculator/calculate", form)
              displayed := some (displayResults r) }

/-- Claim C7 as stated is false on the code: `results.packages` is written
by `.text(results.packages)` without `toFixed(2)`, so for a server reply
with `packages = 3` the node shows the raw number 3, not the two-decimal
string. -/
theorem pavement_packages_not_two_decimals :
    (onCalculateClick ⟨"1", "10", "10", "5", true⟩
        (.ok ⟨Option.none, 3, 3, 3, 3, 3, 3⟩)).displayed =
      some (displayResults ⟨Option.none, 3, 3, 3, 3, 3, 3⟩) ∧
    (displayResults ⟨Option.none, 3, 3, 3, 3, 3, 3⟩).packages =
      JSVal.num 3 ∧
    (displayResults ⟨Option.none, 3, 3, 3, 3, 3, 3⟩).packages ≠
      JSVal.str (toFixed2 3) := by
  refine ⟨rfl, rfl, ?_⟩
  intro h
  exact JSVal.noConfusion h

/-- C7 (amended): the widget computes nothing itself: after checking
that a material is selected and that area, thickness and waste factor are
non-empty, the click sends exactly the raw form inputs in one RPC to
`/pavement_calculator/calculate`; on a reply without `error` it only
displays the returned quantities — five of them through `toFixed(2)` plus
a unit, `packages` as returned, unformatted; a reply with an `error`
field, or a rejected RPC, shows an error dialog and no results. -/
theorem pavement_calculator_display (form : CalcForm)
    (response : Except Unit CalcResult) :
    (form.material_id = "" →
      onCalculateClick form response =
        ⟨some "Por favor seleccione un material", Option.none,
         Option.none⟩) ∧
    (form.material_id ≠ "" →
      (form.area = "" ∨ form.thickness = "" ∨ form.waste_factor = "") →
      onCalculateClick form response =
        ⟨some "Todos los campos son obligatorios", Option.none,
         Option.none⟩) ∧
    (form.material_id ≠ "" → form.area ≠ "" → form.thickness ≠ "" →
      form.waste_factor ≠ "" →
      (onCalculateClick form response).rpcCall =
        some ("/pavement_calculator/calculate", form) ∧
      (∀ r : CalcResult, response = .ok r → r.error = Option.none →
        (onCalculateClick form response).errorDialog = Option.none ∧
        (onCalculateClick form response).displayed = some
          { material := .str (toFixed2 r.material_quantity ++ " kg")
            resin := .str (toFixed2 r.resin_quantity ++ " L")
            packages := .num r.packages
            materialCost := .str (toFixed2 r.material_cost ++ " €")
            resinCost := .str (toFixed2 r.resin_cost ++ " €")
            totalCost := .str (toFixed2 r.total_cost ++ " €") }) ∧
      (∀ (r : CalcResult) (e : String), response = .ok r →
        r.error = some e →
        (onCalculateClick form response).errorDialog = some e ∧
        (onCalculateClick form response).displayed = Option.none) ∧
      (∀ u : Unit, response = .error u →
        (onCalculateClick form response).errorDialog =
          some "Error al realizar el cálculo" ∧
        (onCalculateClick form response).displayed = Option.none)) := by
  refine ⟨?_, ?_, ?_⟩
  · intro h
    unfold onCalculateClick
    rw [if_pos h]
  · intro h1 h2
    unfold onCalculateClick
    rw [if_neg h1, if_pos h2]
  · intro h1 h2 h3 h4
    have hv : ¬(form.area = "" ∨ form.thickness = "" ∨
        form.waste_factor = "") := by
      intro h
      rcases h with h | h | h
      exacts [h2 h, h3 h, h4 h]
    unfold onCalculateClick
    rw [if_neg h1, if_neg hv]
    refine ⟨?_, ?_, ?_, ?_⟩
    · rcases response with u | r
      · rfl
      · rcases hE : r.error with _ | e <;> simp [hE]
    · intro r hr hE
      subst hr
      dsimp only
      rw [hE]
      exact ⟨rfl, rfl⟩
    · intro r e hr hE
      subst hr
      dsimp only
      rw [hE]
      exact ⟨rfl, rfl⟩
    · intro u hr
      subst hr
      exact ⟨rfl, rfl⟩

/-- Closed instance of `pavement_calculator_display`: a valid form and a
successful reply produce the RPC call with the raw inputs and no error
dialog. -/
theorem pavement_calculator_display_witness :
    (onCalculateClick ⟨"2", "25", "12", "5", false⟩
        (.ok ⟨Option.none, 10, 2, 4, 100, 20, 120⟩)).rpcCall =
      some ("/pavement_calculator/calculate",
            ⟨"2", "25", "12", "5", false⟩) ∧
    (onCalculateClick ⟨"2", "25", "12", "5", false⟩
        (.ok ⟨Option.none, 10, 2, 4, 100, 20, 120⟩)).errorDialog =
      Option.none :=
  have h := (pavement_calculator_display ⟨"2", "25", "12", "5", false⟩
      (.ok ⟨Option.none, 10, 2, 4, 100, 20, 120⟩)).2.2
      (by decide) (by decide) (by decide) (by decide)
  ⟨h.1, (h.2.1 ⟨Option.none, 10, 2, 4, 100, 20, 120⟩ rfl rfl).1⟩

/-- The clamp `Math.min(Math.max(this.value || 0, 0), 100)` of
`ExportProgressWidget._render`; a falsy field value is `Option.none`. -/
def exportProgress (value : Option ℚ) : ℚ :=
  min (max (value.getD 0) 0) 100

/-- JS `Math.round x = ⌊x + 1/2⌋`. -/
def jsRound (q : ℚ) : ℤ := ⌊q + 1 / 2⌋

/-- What `_render` writes: the bar width (`progress` percent) and the label
(`Math.round(progress)` percent). -/
structure ProgressRender where
  widthPercent : ℚ
  textPercent : ℤ
  deriving Repr, DecidableEq

/-- Widget method `ExportProgressWidget._render`. -/
def renderProgress (value : Option ℚ) : ProgressRender :=
  { widthPercent := exportProgress value
    textPercent := jsRound (exportProgress value) }

/-- C8: for every field value — absent, negative, or above 100 — the
rendered bar width and the displayed percentage are clamped to [0, 100]:
a missing value renders as 0, a negative one as 0, one above 100 as
100. -/
theorem export_progress_clamped (value : Option ℚ) :
    (0 ≤ (renderProgress value).widthPercent ∧
      (renderProgress value).widthPercent ≤ 100) ∧
    (0 ≤ (renderProgress value).textPercent ∧
      (renderProgress value).textPercent ≤ 100) ∧
    (value = Option.none → (renderProgress value).widthPercent = 0) ∧
    (∀ q : ℚ, value = some q → q < 0 →
      (renderProgress value).widthPercent = 0) ∧
    (∀ q : ℚ, value = some q → 100 < q →
      (renderProgress value).widthPercent = 100) := by
  have h0 : (0 : ℚ) ≤ exportProgress value := by
    unfold exportProgress
    exact le_min (le_max_right _ _) (by norm_num)
  have h100 : exportProgress value ≤ 100 := min_le_right _ _
  refine ⟨⟨h0, h100⟩, ⟨?_, ?_⟩, ?_, ?_, ?_⟩
  · show (0 : ℤ) ≤ jsRound (exportProgress value)
    unfold jsRound
    have : (0 : ℚ) ≤ exportProgress value + 1 / 2 := by linarith
    exact Int.floor_nonneg.2 this
  · show jsRound (exportProgress value) ≤ 100
    unfold jsRound
    have h : exportProgress value + 1 / 2 ≤ 201 / 2 := by linarith
    calc ⌊exportProgress value + 1 / 2⌋ ≤ ⌊(201 / 2 : ℚ)⌋ :=
          Int.floor_le_floor h
      _ = 100 := by
          rw [Int.floor_eq_iff]
          norm_num
  · intro h
    subst h
    unfold renderProgress exportProgress
    norm_num
  · intro q hq hneg
    subst hq
    unfold renderProgress exportProgress
    simp only [Option.getD_some]
    rw [max_eq_right (le_of_lt hneg)]
    norm_num
  · intro q hq hbig
    subst hq
    unfold renderProgress exportProgress
    simp only [Option.getD_some]
    rw [max_eq_left (by linarith), min_eq_right (by linarith)]

/-- Closed instance of `export_progress_clamped`: the value 250 renders
at 100 %, the value -3 at 0 %. -/
theorem export_progress_clamped_witness :
    (renderProgress (some 250)).widthPercent = 100 ∧
    (renderProgress (some (-3))).widthPercent = 0 :=
  ⟨(export_progress_clamped (some 250)).2.2.2.2 250 rfl (by norm_num),
   (export_progress_clamped (some (-3))).2.2.2.1 (-3) rfl (by norm_num)⟩

end Pavement
